import Mathlib

/-!
Shallow embedding of the chat gateway in src/api/index.js: the record store
(conversations and messages), the helper functions getOrCreateConversation,
getConversationHistory and saveMessage, the context-assembly logic of the
POST /api/chat handler, and the GET /api/conversations/:id/messages route.
The external store is modelled as an in-memory state; timestamps are natural
numbers assigned from a monotone counter; the completion service is a
function parameter returning Except (failure carries the upstream error
text, mirroring a thrown error caught by the handler's try/catch).
-/

/-- A row of the conversations collection (src/api/index.js lines 107-116). -/
structure Conversation where
  id : Nat
  user_id : String
  title : String
  created_at : Nat
  updated_at : Nat
deriving DecidableEq

/-- A row of the messages collection (src/api/index.js lines 151-158). -/
structure Message where
  id : Nat
  conversation_id : Nat
  role : String
  content : String
  created_at : Nat
deriving DecidableEq

/-- The external record store, plus the id counter and clock the store uses
to assign fresh ids and created_at timestamps on insert. -/
structure Store where
  conversations : List Conversation
  messages : List Message
  nextId : Nat
  now : Nat
deriving DecidableEq

/-- Freshness invariant of the store: every stored id is below the id
counter, so a freshly assigned id collides with nothing. -/
def Store.WF (st : Store) : Prop :=
  (∀ c ∈ st.conversations, c.id < st.nextId) ∧
  (∀ m ∈ st.messages, m.conversation_id < st.nextId)

instance (st : Store) : Decidable st.WF := by
  unfold Store.WF; infer_instance

/-- getOrCreateConversation (src/api/index.js lines 92-127): when a
conversation id is supplied and a row with that id and the caller's user_id
exists, return it unchanged; otherwise insert a new conversation with the
supplied title. -/
def getOrCreateConversation (st : Store) (userId : String)
    (conversationId : Option Nat) (title : String) : Conversation × Store :=
  match conversationId.bind
      (fun cid => st.conversations.find? (fun c => c.id == cid && c.user_id == userId)) with
  | some c => (c, st)
  | none =>
    let c : Conversation := ⟨st.nextId, userId, title, st.now, st.now⟩
    (c, ⟨st.conversations ++ [c], st.messages, st.nextId + 1, st.now + 1⟩)

/-- Comparison used by the store's order by created_at ascending. -/
def msgLE (a b : Message) : Prop := a.created_at ≤ b.created_at

instance : DecidableRel msgLE := fun a b => Nat.decLe a.created_at b.created_at

instance : IsTotal Message msgLE := ⟨fun a b => Nat.le_total a.created_at b.created_at⟩

instance : IsTrans Message msgLE := ⟨fun _ _ _ h h2 => Nat.le_trans h h2⟩

/-- The rows of the messages collection belonging to one conversation
(the eq filter of src/api/index.js line 134). -/
def conversationMessages (st : Store) (cid : Nat) : List Message :=
  st.messages.filter (fun m => m.conversation_id == cid)

/-- The conversation's messages ordered by created_at ascending
(src/api/index.js line 135). -/
def sortedConversationMessages (st : Store) (cid : Nat) : List Message :=
  List.insertionSort msgLE (conversationMessages st cid)

/-- getConversationHistory (src/api/index.js lines 129-147): the
conversation's messages, created_at ascending, at most limit rows. -/
def getConversationHistory (st : Store) (cid : Nat) (limit : Nat) : List Message :=
  (sortedConversationMessages st cid).take limit

/-- saveMessage (src/api/index.js lines 149-171): insert one message row
with a store-assigned id and created_at. -/
def saveMessage (st : Store) (conversationId : Nat) (role content : String) :
    Message × Store :=
  let m : Message := ⟨st.nextId, conversationId, role, content, st.now⟩
  (m, ⟨st.conversations, st.messages ++ [m], st.nextId + 1, st.now + 1⟩)

/-- The conversations update of src/api/index.js lines 262-267: set the
title of every conversation row whose id matches. -/
def updateConversationTitle (st : Store) (cid : Nat) (title : String) : Store :=
  ⟨st.conversations.map
      (fun c => if c.id == cid then ⟨c.id, c.user_id, title, c.created_at, c.updated_at⟩ else c),
    st.messages, st.nextId, st.now⟩

/-- Rendering of one history message in the context loop
(src/api/index.js lines 235-241): user and assistant roles are rendered
with a prefix tag, any other role is skipped. -/
def renderMessage (m : Message) : Option String :=
  if m.role = "user" then some ("User: " ++ m.content)
  else if m.role = "assistant" then some ("Assistant: " ++ m.content)
  else none

/-- Context assembly of the chat handler (src/api/index.js lines 234-251):
render the history, push the rendered new prompt, and either wrap everything
but the final pushed element in the previous-conversation template (when the
history is non-empty) or send the bare prompt. -/
def buildContext (history : List Message) (prompt : String) : String :=
  let contextMessages := history.filterMap renderMessage ++ ["User: " ++ prompt]
  if 0 < history.length then
    "Previous conversation:\n" ++ String.intercalate "\n" contextMessages.dropLast ++
      "\n\nCurrent message:\n" ++ prompt ++
      "\n\nPlease respond remembering our previous conversation and maintain context."
  else
    prompt

/-- GET /api/conversations/:id/messages (src/api/index.js lines 204-213):
the authenticated user is available on the request but the handler only
passes the path id to getConversationHistory (default limit 20). -/
def getMessagesRoute (st : Store) (userId : String) (conversationId : Nat) : List Message :=
  getConversationHistory st conversationId 20

/-- Body of a POST /api/chat request. -/
structure ChatRequest where
  prompt : Option String
  conversation_id : Option Nat
  model_name : Option String
deriving DecidableEq

/-- The JSON response of POST /api/chat: the 400 of line 220, the success
body of lines 270-274, or the 500 bodies of lines 280-288. -/
inductive ChatResult where
  | badRequest (error : String)
  | ok (content : String) (conversation_id : Nat) (model_used : String)
  | serverError (error : String) (details : Option String)
deriving DecidableEq

/-- Result of one chat turn: the response, the final store state, and the
completion calls that were issued (model id used for generation, prompt
text sent). -/
structure TurnOutcome where
  result : ChatResult
  store : Store
  completionCalls : List (String × String)
deriving DecidableEq

/-- The model instance is created once with a fixed identifier
(src/api/index.js line 43) and every generateContent call goes through it. -/
def fixedModelId : String := "gemini-2.0-flash-exp"

/-- JavaScript String.prototype.includes, via splitOn: a pattern occurs in s
iff splitting s on it yields more than one part. -/
def includesSubstr (s pat : String) : Bool := 1 < (s.splitOn pat).length

/-- JavaScript falsiness of the prompt field (line 219): absent or empty. -/
def promptFalsy : Option String → Bool
  | none => true
  | some s => s == ""

/-- The POST /api/chat handler (src/api/index.js lines 215-290), after
authentication. complete stands for model.generateContent: it receives the
identifier of the model instance it is invoked on and the assembled context,
and either returns the response text or fails with the upstream error
message, in which case the catch block maps it to a 500 response and the
already-committed writes stay. -/
def postChat (complete : String → String → Except String String)
    (st : Store) (userId : String) (req : ChatRequest) : TurnOutcome :=
  if promptFalsy req.prompt then
    ⟨ChatResult.badRequest "Missing required parameter: prompt", st, []⟩
  else
    let prompt := req.prompt.getD ""
    let r1 := getOrCreateConversation st userId req.conversation_id (prompt.take 50 ++ "...")
    let conversation := r1.1
    let st1 := r1.2
    let history := getConversationHistory st1 conversation.id 20
    let r2 := saveMessage st1 conversation.id "user" prompt
    let st2 := r2.2
    let fullContext := buildContext history prompt
    match complete fixedModelId fullContext with
    | Except.error e =>
      if includesSubstr e "API_KEY" then
        ⟨ChatResult.serverError
            "Invalid or missing Gemini API key. Please check your configuration." none,
          st2, [(fixedModelId, fullContext)]⟩
      else
        ⟨ChatResult.serverError "Failed to generate response. Please try again." (some e),
          st2, [(fixedModelId, fullContext)]⟩
    | Except.ok aiResponse =>
      let r3 := saveMessage st2 conversation.id "assistant" aiResponse
      let st3 := r3.2
      let st4 :=
        if history.length = 0 then
          updateConversationTitle st3 conversation.id
            (prompt.take 50 ++ (if 50 < prompt.length then "..." else ""))
        else st3
      ⟨ChatResult.ok aiResponse conversation.id (req.model_name.getD "gemini-2.0-flash-exp"),
        st4, [(fixedModelId, fullContext)]⟩

/-- C9: the Context Assembler applied to an empty prior-message sequence is
the identity on the prompt: no wrapping text is added. -/
theorem buildContext_empty_history (prompt : String) : buildContext [] prompt = prompt := rfl

/-- C3: for every non-empty prior-message sequence, the Context Assembler
renders user messages as a User: line and assistant messages as an
Assistant: line, drops other roles, joins the rendered lines with newlines,
and wraps them in the previous-conversation template around the prompt; the
rendered new prompt pushed at the end is not part of the previous-turns
section. -/
theorem buildContext_nonempty_spec (history : List Message) (prompt : String)
    (h : history ≠ []) :
    buildContext history prompt =
      "Previous conversation:\n" ++
        String.intercalate "\n" (history.filterMap (fun m =>
          if m.role = "user" then some ("User: " ++ m.content)
          else if m.role = "assistant" then some ("Assistant: " ++ m.content)
          else none)) ++
        "\n\nCurrent message:\n" ++ prompt ++
        "\n\nPlease respond remembering our previous conversation and maintain context." := by
  have hlen : 0 < history.length := List.length_pos.mpr h
  simp only [buildContext, hlen, if_pos, List.dropLast_concat]
  rfl

/-- C3 witness: on the history user hi, assistant hello and the prompt
how are you, the assembled context is exactly the expected block. -/
theorem buildContext_nonempty_spec_witness :
    ([⟨0, 0, "user", "hi", 0⟩, ⟨1, 0, "assistant", "hello", 1⟩] ≠ ([] : List Message)) ∧
    buildContext [⟨0, 0, "user", "hi", 0⟩, ⟨1, 0, "assistant", "hello", 1⟩] "how are you" =
      "Previous conversation:\nUser: hi\nAssistant: hello\n\nCurrent message:\nhow are you\n\nPlease respond remembering our previous conversation and maintain context." :=
  ⟨by decide,
    (buildContext_nonempty_spec
        [⟨0, 0, "user", "hi", 0⟩, ⟨1, 0, "assistant", "hello", 1⟩]
        "how are you" (by decide)).trans (by decide)⟩

/-- A conversation id below the id counter matches no stored message, so the
filter on conversation_id is empty for a freshly assigned id. -/
theorem filter_fresh_conversation_nil (ms : List Message) (n : Nat)
    (h : ∀ m ∈ ms, m.conversation_id < n) :
    ms.filter (fun m => m.conversation_id == n) = [] := by
  induction ms with
  | nil => rfl
  | cons a l ih =>
    have ha : (a.conversation_id == n) = false := by
      simp [Nat.ne_of_lt (h a (by simp))]
    simp only [List.filter, ha]
    exact ih (fun m hm => h m (by simp [hm]))

/-- The title update touches no conversation whose id differs from the
target, so rows with smaller ids pass through unchanged. -/
theorem map_retitle_id (l : List Conversation) (n : Nat) (t : String)
    (h : ∀ c ∈ l, c.id < n) :
    l.map (fun c =>
        if c.id == n then (⟨c.id, c.user_id, t, c.created_at, c.updated_at⟩ : Conversation)
        else c) = l := by
  induction l with
  | nil => rfl
  | cons a l ih =>
    have ha : (a.id == n) = false := by
      simp [Nat.ne_of_lt (h a (by simp))]
    simp only [List.map, ha, if_neg, Bool.false_eq_true, not_false_iff]
    exact congrArg (a :: ·) (ih (fun c hc => h c (by simp [hc])))

/-- C1: a chat turn with a non-empty prompt and no conversation_id, whose
completion succeeds, adds exactly one conversation row owned by the caller,
adds exactly two message rows in that conversation (the user prompt then the
assistant reply, which is the completion of the bare prompt), and leaves the
new conversation's title equal to the first 50 characters of the prompt with
an ellipsis exactly when the prompt is longer than 50 characters. -/
theorem postChat_new_conversation (st : Store) (userId p : String) (f : String → String)
    (mn : Option String) (hwf : st.WF) (hp : p ≠ "") :
    (postChat (fun _ s => Except.ok (f s)) st userId ⟨some p, none, mn⟩).store.conversations
        = st.conversations ++
          [⟨st.nextId, userId, p.take 50 ++ (if 50 < p.length then "..." else ""),
            st.now, st.now⟩] ∧
    (postChat (fun _ s => Except.ok (f s)) st userId ⟨some p, none, mn⟩).store.messages
        = st.messages ++
          [⟨st.nextId + 1, st.nextId, "user", p, st.now + 1⟩,
           ⟨st.nextId + 2, st.nextId, "assistant", f p, st.now + 2⟩] ∧
    (postChat (fun _ s => Except.ok (f s)) st userId ⟨some p, none, mn⟩).result
        = ChatResult.ok (f p) st.nextId (mn.getD "gemini-2.0-flash-exp") := by
  have hp' : (p == "") = false := beq_eq_false_iff_ne.mpr hp
  have hfil : st.messages.filter (fun m => m.conversation_id == st.nextId) = [] :=
    filter_fresh_conversation_nil st.messages st.nextId hwf.2
  have hmap := map_retitle_id st.conversations st.nextId
    (p.take 50 ++ (if 50 < p.length then "..." else "")) hwf.1
  simp only [beq_iff_eq] at hmap
  simp [postChat, promptFalsy, hp', getOrCreateConversation, getConversationHistory,
    sortedConversationMessages, conversationMessages, hfil, saveMessage, buildContext,
    updateConversationTitle, hmap]

/-- C1 witness: a concrete first turn on an empty store. -/
theorem postChat_new_conversation_witness :
    (⟨[], [], 0, 0⟩ : Store).WF ∧ "hi" ≠ "" ∧
    ((postChat (fun _ s => Except.ok s) ⟨[], [], 0, 0⟩ "u" ⟨some "hi", none, none⟩).store.conversations
        = [] ++ [⟨0, "u", "hi".take 50 ++ (if 50 < "hi".length then "..." else ""), 0, 0⟩] ∧
      (postChat (fun _ s => Except.ok s) ⟨[], [], 0, 0⟩ "u" ⟨some "hi", none, none⟩).store.messages
        = [] ++ [⟨1, 0, "user", "hi", 1⟩, ⟨2, 0, "assistant", "hi", 2⟩] ∧
      (postChat (fun _ s => Except.ok s) ⟨[], [], 0, 0⟩ "u" ⟨some "hi", none, none⟩).result
        = ChatResult.ok "hi" 0 "gemini-2.0-flash-exp") :=
  ⟨by decide, by decide,
    postChat_new_conversation ⟨[], [], 0, 0⟩ "u" "hi" (fun s => s) none (by decide) (by decide)⟩

set_option maxRecDepth 8000 in
/-- C2 counterexample: an existing conversation owned by the caller whose
message list is empty does not keep its title: the turn overwrites it with
the truncated prompt, because the first-turn check only inspects the fetched
history length, not whether the conversation pre-existed. -/
theorem postChat_existing_conversation_counterexample :
    ((⟨[⟨0, "u", "OldTitle", 0, 0⟩], [], 1, 5⟩ : Store).conversations.find?
        (fun c => c.id == 0 && c.user_id == "u") = some ⟨0, "u", "OldTitle", 0, 0⟩) ∧
    (postChat (fun _ s => Except.ok s) ⟨[⟨0, "u", "OldTitle", 0, 0⟩], [], 1, 5⟩ "u"
        ⟨some "hi", some 0, none⟩).store.conversations = [⟨0, "u", "hi", 0, 0⟩] ∧
    ("hi" : String) ≠ "OldTitle" := by
  refine ⟨by decide, by decide, by decide⟩

/-- C2 (amended): a chat turn with a non-empty prompt whose conversation_id
resolves to a caller-owned conversation that already holds at least one
message appends exactly the user message and the assistant reply to that
conversation and changes no conversation row, in particular not the title;
without the at-least-one-message proviso the title can be overwritten. -/
theorem postChat_existing_conversation (st : Store) (userId p : String) (f : String → String)
    (cid : Nat) (mn : Option String) (conv : Conversation)
    (hfind : st.conversations.find? (fun c => c.id == cid && c.user_id == userId) = some conv)
    (hmsg : conversationMessages st conv.id ≠ []) (hp : p ≠ "") :
    (postChat (fun _ s => Except.ok (f s)) st userId ⟨some p, some cid, mn⟩).store.conversations
        = st.conversations ∧
    (postChat (fun _ s => Except.ok (f s)) st userId ⟨some p, some cid, mn⟩).store.messages
        = st.messages ++
          [⟨st.nextId, conv.id, "user", p, st.now⟩,
           ⟨st.nextId + 1, conv.id, "assistant",
             f (buildContext (getConversationHistory st conv.id 20) p), st.now + 1⟩] ∧
    (postChat (fun _ s => Except.ok (f s)) st userId ⟨some p, some cid, mn⟩).result
        = ChatResult.ok (f (buildContext (getConversationHistory st conv.id 20) p)) conv.id
            (mn.getD "gemini-2.0-flash-exp") := by
  have hp' : (p == "") = false := beq_eq_false_iff_ne.mpr hp
  have hhist : ¬((getConversationHistory st conv.id 20).length = 0) := by
    unfold getConversationHistory sortedConversationMessages
    rw [List.length_take]
    have hlen : 0 < (conversationMessages st conv.id).length := List.length_pos.mpr hmsg
    have hperm := (List.perm_insertionSort msgLE (conversationMessages st conv.id)).length_eq
    omega
  simp [postChat, promptFalsy, hp', getOrCreateConversation, hfind, saveMessage, hhist]

/-- C2 witness: a concrete continuing turn on a conversation with one prior
message leaves the conversation row, and so its title, intact. -/
theorem postChat_existing_conversation_witness :
    ((⟨[⟨0, "u", "T", 0, 0⟩], [⟨1, 0, "user", "a", 1⟩], 2, 9⟩ : Store).conversations.find?
        (fun c => c.id == 0 && c.user_id == "u") = some ⟨0, "u", "T", 0, 0⟩) ∧
    conversationMessages ⟨[⟨0, "u", "T", 0, 0⟩], [⟨1, 0, "user", "a", 1⟩], 2, 9⟩ 0 ≠ [] ∧
    ("hi" : String) ≠ "" ∧
    ((postChat (fun _ s => Except.ok s) ⟨[⟨0, "u", "T", 0, 0⟩], [⟨1, 0, "user", "a", 1⟩], 2, 9⟩
          "u" ⟨some "hi", some 0, none⟩).store.conversations
        = [⟨0, "u", "T", 0, 0⟩] ∧
      (postChat (fun _ s => Except.ok s) ⟨[⟨0, "u", "T", 0, 0⟩], [⟨1, 0, "user", "a", 1⟩], 2, 9⟩
          "u" ⟨some "hi", some 0, none⟩).store.messages
        = [⟨1, 0, "user", "a", 1⟩] ++
          [⟨2, 0, "user", "hi", 9⟩,
           ⟨3, 0, "assistant",
             buildContext
               (getConversationHistory
                 ⟨[⟨0, "u", "T", 0, 0⟩], [⟨1, 0, "user", "a", 1⟩], 2, 9⟩ 0 20) "hi", 10⟩] ∧
      (postChat (fun _ s => Except.ok s) ⟨[⟨0, "u", "T", 0, 0⟩], [⟨1, 0, "user", "a", 1⟩], 2, 9⟩
          "u" ⟨some "hi", some 0, none⟩).result
        = ChatResult.ok
            (buildContext
              (getConversationHistory
                ⟨[⟨0, "u", "T", 0, 0⟩], [⟨1, 0, "user", "a", 1⟩], 2, 9⟩ 0 20) "hi") 0
            "gemini-2.0-flash-exp") :=
  ⟨by decide, by decide, by decide,
    postChat_existing_conversation ⟨[⟨0, "u", "T", 0, 0⟩], [⟨1, 0, "user", "a", 1⟩], 2, 9⟩
      "u" "hi" (fun s => s) 0 none ⟨0, "u", "T", 0, 0⟩ (by decide) (by decide) (by decide)⟩

/-- Resolving or creating a conversation never touches the messages
collection. -/
theorem getOrCreateConversation_messages (st : Store) (u : String) (cid : Option Nat)
    (t : String) : (getOrCreateConversation st u cid t).2.messages = st.messages := by
  unfold getOrCreateConversation
  split <;> rfl

/-- C4: when the completion call fails, the turn still leaves exactly one
new message in the store, the user message holding the prompt, committed
before the (issued) completion call; no assistant message is written, and
the handler surfaces a server error. -/
theorem postChat_completion_failure (st : Store) (userId p : String) (cid : Option Nat)
    (mn : Option String) (e : String) (hp : p ≠ "") :
    (∃ i cv t,
      (postChat (fun _ _ => Except.error e) st userId ⟨some p, cid, mn⟩).store.messages
        = st.messages ++ [⟨i, cv, "user", p, t⟩]) ∧
    (∀ m ∈ (postChat (fun _ _ => Except.error e) st userId ⟨some p, cid, mn⟩).store.messages,
      m.role = "assistant" → m ∈ st.messages) ∧
    (∃ msg d, (postChat (fun _ _ => Except.error e) st userId ⟨some p, cid, mn⟩).result
        = ChatResult.serverError msg d) ∧
    (postChat (fun _ _ => Except.error e) st userId ⟨some p, cid, mn⟩).completionCalls.length
        = 1 := by
  have hp' : (p == "") = false := beq_eq_false_iff_ne.mpr hp
  have hmsgs := getOrCreateConversation_messages st userId cid (p.take 50 ++ "...")
  have hstore :
      (postChat (fun _ _ => Except.error e) st userId ⟨some p, cid, mn⟩).store.messages
        = st.messages ++
          [⟨(getOrCreateConversation st userId cid (p.take 50 ++ "...")).2.nextId,
            (getOrCreateConversation st userId cid (p.take 50 ++ "...")).1.id, "user", p,
            (getOrCreateConversation st userId cid (p.take 50 ++ "...")).2.now⟩] := by
    simp only [postChat, promptFalsy, hp', Bool.false_eq_true, if_false, Option.getD_some]
    split <;> simp [saveMessage, hmsgs]
  refine ⟨⟨_, _, _, hstore⟩, ?_, ?_, ?_⟩
  · intro m hm hrole
    rw [hstore] at hm
    rcases List.mem_append.mp hm with h | h
    · exact h
    · rw [List.mem_singleton] at h
      subst h
      simp at hrole
  · simp only [postChat, promptFalsy, hp', Bool.false_eq_true, if_false, Option.getD_some]
    split
    · exact ⟨_, _, rfl⟩
    · exact ⟨_, _, rfl⟩
  · simp only [postChat, promptFalsy, hp', Bool.false_eq_true, if_false, Option.getD_some]
    split <;> rfl

/-- C4 witness: a failing completion on a fresh turn still leaves the user
message committed, writes nothing else, and yields a server error. -/
theorem postChat_completion_failure_witness :
    ("hi" : String) ≠ "" ∧
    ((∃ i cv t,
        (postChat (fun _ _ => Except.error "boom") ⟨[], [], 0, 0⟩ "u"
            ⟨some "hi", none, none⟩).store.messages
          = [] ++ [⟨i, cv, "user", "hi", t⟩]) ∧
      (∀ m ∈ (postChat (fun _ _ => Except.error "boom") ⟨[], [], 0, 0⟩ "u"
          ⟨some "hi", none, none⟩).store.messages,
        m.role = "assistant" → m ∈ ([] : List Message)) ∧
      (∃ msg d, (postChat (fun _ _ => Except.error "boom") ⟨[], [], 0, 0⟩ "u"
          ⟨some "hi", none, none⟩).result = ChatResult.serverError msg d) ∧
      (postChat (fun _ _ => Except.error "boom") ⟨[], [], 0, 0⟩ "u"
          ⟨some "hi", none, none⟩).completionCalls.length = 1) :=
  ⟨by decide,
    postChat_completion_failure ⟨[], [], 0, 0⟩ "u" "hi" none none "boom" (by decide)⟩

/-- A supplied conversation id that does not resolve for the caller makes
getOrCreateConversation take the same insert path as no id at all. -/
theorem getOrCreateConversation_not_found (st : Store) (u t : String) (cid : Nat)
    (h : st.conversations.find? (fun c => c.id == cid && c.user_id == u) = none) :
    getOrCreateConversation st u (some cid) t = getOrCreateConversation st u none t := by
  simp [getOrCreateConversation, h]

/-- C5: a chat request whose conversation_id resolves to no conversation
owned by the caller (wrong owner or nonexistent id) produces exactly the
same outcome, response, store and completion calls alike, as the same
request with conversation_id omitted. -/
theorem postChat_unresolved_id_like_new (complete : String → String → Except String String)
    (st : Store) (userId : String) (pr : Option String) (cid : Nat) (mn : Option String)
    (h : st.conversations.find? (fun c => c.id == cid && c.user_id == userId) = none) :
    postChat complete st userId ⟨pr, some cid, mn⟩ = postChat complete st userId ⟨pr, none, mn⟩ := by
  have key := getOrCreateConversation_not_found st userId ((pr.getD "").take 50 ++ "...") cid h
  simp only [postChat, key]

/-- C5 witness: on a store owning conversation 0 for another user, a request
naming conversation 0 runs exactly like one naming no conversation. -/
theorem postChat_unresolved_id_like_new_witness :
    ((⟨[⟨0, "other", "T", 0, 0⟩], [], 1, 0⟩ : Store).conversations.find?
        (fun c => c.id == 0 && c.user_id == "u") = none) ∧
    postChat (fun _ s => Except.ok s) ⟨[⟨0, "other", "T", 0, 0⟩], [], 1, 0⟩ "u"
        ⟨some "hi", some 0, none⟩
      = postChat (fun _ s => Except.ok s) ⟨[⟨0, "other", "T", 0, 0⟩], [], 1, 0⟩ "u"
          ⟨some "hi", none, none⟩ :=
  ⟨by decide,
    postChat_unresolved_id_like_new (fun _ s => Except.ok s)
      ⟨[⟨0, "other", "T", 0, 0⟩], [], 1, 0⟩ "u" (some "hi") 0 none (by decide)⟩

/-- C8: a chat request with no prompt is rejected with the missing-parameter
client error, the store is returned untouched, and no completion call is
made. -/
theorem postChat_missing_prompt (complete : String → String → Except String String)
    (st : Store) (userId : String) (cid : Option Nat) (mn : Option String) :
    postChat complete st userId ⟨none, cid, mn⟩ =
      ⟨ChatResult.badRequest "Missing required parameter: prompt", st, []⟩ := rfl

set_option maxRecDepth 8000 in
/-- C7 counterexample: a successful turn requesting model gemini-1.5-pro
reports model_used gemini-1.5-pro while the completion call was issued on
the fixed gemini-2.0-flash-exp instance, so the reported identifier differs
from the one actually used. -/
theorem postChat_model_used_counterexample :
    (postChat (fun _ s => Except.ok s) ⟨[], [], 0, 0⟩ "u"
        ⟨some "hi", none, some "gemini-1.5-pro"⟩).result
      = ChatResult.ok "hi" 0 "gemini-1.5-pro" ∧
    (postChat (fun _ s => Except.ok s) ⟨[], [], 0, 0⟩ "u"
        ⟨some "hi", none, some "gemini-1.5-pro"⟩).completionCalls
      = [("gemini-2.0-flash-exp", "hi")] ∧
    ("gemini-1.5-pro" : String) ≠ "gemini-2.0-flash-exp" :=
  ⟨by decide, by decide, by decide⟩

/-- C7 (amended): every completion call a chat turn issues goes to the
fixed gemini-2.0-flash-exp model instance, while a successful response
reports as model_used the request's model_name, defaulting to
gemini-2.0-flash-exp; the two coincide only when the request omits
model_name or names the default. -/
theorem postChat_model_used (complete : String → String → Except String String)
    (st : Store) (userId : String) (req : ChatRequest) :
    (∀ call ∈ (postChat complete st userId req).completionCalls,
        call.1 = "gemini-2.0-flash-exp") ∧
    (∀ content convId mu,
        (postChat complete st userId req).result = ChatResult.ok content convId mu →
          mu = req.model_name.getD "gemini-2.0-flash-exp") := by
  simp only [postChat]
  split
  · simp
  · split
    · split <;> simp [fixedModelId]
    · simp [fixedModelId]

/-- C6: the messages route ignores the authenticated principal: any two
principals requesting the same conversation id get the same list, which
consists only of that conversation's messages, holds at most 20 of them,
and is ordered oldest first. -/
theorem getMessagesRoute_no_ownership_check (st : Store) (u1 u2 : String) (cid : Nat) :
    getMessagesRoute st u1 cid = getMessagesRoute st u2 cid ∧
    (∀ m ∈ getMessagesRoute st u1 cid, m.conversation_id = cid) ∧
    (getMessagesRoute st u1 cid).length ≤ 20 ∧
    List.Sorted msgLE (getMessagesRoute st u1 cid) := by
  refine ⟨rfl, ?_, ?_, ?_⟩
  · intro m hm
    have hm' : m ∈ sortedConversationMessages st cid := List.mem_of_mem_take hm
    have hm2 : m ∈ conversationMessages st cid :=
      (List.perm_insertionSort msgLE (conversationMessages st cid)).mem_iff.mp hm'
    have hf := List.mem_filter.mp hm2
    simpa using hf.2
  · exact List.length_take_le 20 (sortedConversationMessages st cid)
  · exact List.Pairwise.sublist (List.take_sublist 20 (sortedConversationMessages st cid))
      (List.sorted_insertionSort msgLE (conversationMessages st cid))

/-- C10: when a conversation holds more than 20 messages, the fetched
history is exactly 20 messages long, ordered oldest first, drawn from the
conversation's stored messages, and together with the dropped tail of the
sorted sequence it is a permutation of all of them; every kept message is at
least as old as every dropped one, so the most recent messages are the
excluded ones. -/
theorem getConversationHistory_keeps_oldest (st : Store) (cid : Nat)
    (h20 : 20 < (conversationMessages st cid).length) :
    (getConversationHistory st cid 20).length = 20 ∧
    List.Sorted msgLE (getConversationHistory st cid 20) ∧
    List.Perm (getConversationHistory st cid 20 ++ (sortedConversationMessages st cid).drop 20)
      (conversationMessages st cid) ∧
    (∀ m ∈ getConversationHistory st cid 20,
      ∀ m2 ∈ (sortedConversationMessages st cid).drop 20,
        m.created_at ≤ m2.created_at) := by
  have hlen : (sortedConversationMessages st cid).length
      = (conversationMessages st cid).length :=
    (List.perm_insertionSort msgLE (conversationMessages st cid)).length_eq
  have hsorted : List.Sorted msgLE (sortedConversationMessages st cid) :=
    List.sorted_insertionSort msgLE (conversationMessages st cid)
  have hsplit := List.take_append_drop 20 (sortedConversationMessages st cid)
  refine ⟨?_, ?_, ?_, ?_⟩
  · show ((sortedConversationMessages st cid).take 20).length = 20
    rw [List.length_take, hlen]
    omega
  · exact List.Pairwise.sublist (List.take_sublist 20 (sortedConversationMessages st cid))
      hsorted
  · show List.Perm ((sortedConversationMessages st cid).take 20 ++
        (sortedConversationMessages st cid).drop 20) (conversationMessages st cid)
    rw [hsplit]
    exact List.perm_insertionSort msgLE (conversationMessages st cid)
  · have hpw : List.Pairwise msgLE ((sortedConversationMessages st cid).take 20 ++
        (sortedConversationMessages st cid).drop 20) := by
      rw [hsplit]; exact hsorted
    exact fun m hm m2 hm2 => (List.pairwise_append.mp hpw).2.2 m hm m2 hm2

/-- C10 witness: a conversation holding 21 messages keeps the 20 oldest. -/
theorem getConversationHistory_keeps_oldest_witness :
    (20 < (conversationMessages
        ⟨[], (List.range 21).map (fun i => ⟨i, 0, "user", "m", 21 - i⟩), 100, 100⟩ 0).length) ∧
    ((getConversationHistory
        ⟨[], (List.range 21).map (fun i => ⟨i, 0, "user", "m", 21 - i⟩), 100, 100⟩ 0 20).length
        = 20 ∧
      List.Sorted msgLE (getConversationHistory
        ⟨[], (List.range 21).map (fun i => ⟨i, 0, "user", "m", 21 - i⟩), 100, 100⟩ 0 20) ∧
      List.Perm (getConversationHistory
          ⟨[], (List.range 21).map (fun i => ⟨i, 0, "user", "m", 21 - i⟩), 100, 100⟩ 0 20 ++
          (sortedConversationMessages
            ⟨[], (List.range 21).map (fun i => ⟨i, 0, "user", "m", 21 - i⟩), 100, 100⟩ 0).drop 20)
        (conversationMessages
          ⟨[], (List.range 21).map (fun i => ⟨i, 0, "user", "m", 21 - i⟩), 100, 100⟩ 0) ∧
      (∀ m ∈ getConversationHistory
          ⟨[], (List.range 21).map (fun i => ⟨i, 0, "user", "m", 21 - i⟩), 100, 100⟩ 0 20,
        ∀ m2 ∈ (sortedConversationMessages
            ⟨[], (List.range 21).map (fun i => ⟨i, 0, "user", "m", 21 - i⟩), 100, 100⟩ 0).drop 20,
          m.created_at ≤ m2.created_at)) :=
  ⟨by decide,
    getConversationHistory_keeps_oldest
      ⟨[], (List.range 21).map (fun i => ⟨i, 0, "user", "m", 21 - i⟩), 100, 100⟩ 0 (by decide)⟩
